import Mathlib

set_option linter.unusedVariables false

/-!
Shallow embedding of the tslib plugin `plugins/wmtouch-raw.c` (the Windows
WM_TOUCH raw-input module), together with proofs of spec properties.

Modelling conventions:
* `DWORD` / `unsigned` values are `Nat`; where 32-bit wraparound can occur in
  the C source (the `dwTime * 1000` multiplication on `DWORD`), we reduce
  modulo `2^32` explicitly.
* A `TOUCHINPUT *` buffer is an `Option (List TOUCHINPUT)`: `none` is the
  NULL pointer, `some l` an allocation holding the records `l`.
* Calls into the platform (`malloc` success, `GetTouchInputInfo`,
  `CallWindowProc` on the previously installed handler) are oracles packaged
  in `WndEnv`.
* Struct fields keep the C names.  Fields of `struct tslib_input` that the
  module never reads after `wmtouch_mod_init` initializes them are kept as
  plain integers for fidelity.
-/

/-- Windows `TOUCHINPUT` record as used by the module: position, activity
flag bits (`dwFlags`) and millisecond timestamp (`dwTime`). -/
structure TOUCHINPUT where
  x : Int
  y : Int
  dwFlags : Nat
  dwTime : Nat
  deriving Repr, DecidableEq

/-- The all-zero record produced by `memset(buf, 0, ...)`. -/
def zeroTouch : TOUCHINPUT := { x := 0, y := 0, dwFlags := 0, dwTime := 0 }

/-- Windows `TOUCHEVENTF_MOVE` flag bit (0x0001). -/
def TOUCHEVENTF_MOVE : Nat := 1

/-- Windows `TOUCHEVENTF_DOWN` flag bit (0x0002). -/
def TOUCHEVENTF_DOWN : Nat := 2

/-- Windows `WM_TOUCH` message number (0x0240). -/
def WM_TOUCH : Nat := 576

/-- The C test `dwFlags & TOUCHEVENTF_DOWN || dwFlags & TOUCHEVENTF_MOVE`. -/
def isDownOrMove (r : TOUCHINPUT) : Bool :=
  (r.dwFlags &&& TOUCHEVENTF_DOWN != 0) || (r.dwFlags &&& TOUCHEVENTF_MOVE != 0)

/-- `struct timeval` as written by the reads (`tv_sec`, `tv_usec`).  Values
are kept as the 32-bit bit patterns that the C code stores. -/
structure timeval where
  tv_sec : Nat
  tv_usec : Nat
  deriving Repr, DecidableEq

/-- The fields of `struct ts_sample` that this module writes (`x`, `y`,
`tv`); the `pressure` field is never touched by the module and is omitted. -/
structure ts_sample where
  x : Int
  y : Int
  tv : timeval
  deriving Repr, DecidableEq

/-- `struct tslib_input` (the private state of the module).  `buf` and
`max_slots` are the contact buffer and its capacity; the remaining integer
fields are carried for fidelity with the C struct but are never read by the
operations under verification. -/
structure tslib_input where
  current_x : Int
  current_y : Int
  current_p : Int
  grab_events : Int
  buf : Option (List TOUCHINPUT)
  slot : Int
  max_slots : Nat
  nr : Int
  pen_down : Int
  last_fd : Int
  mt : Int
  no_pressure : Int
  type_a : Int
  special_device : Nat
  deriving Repr, DecidableEq

/-- `GRAB_EVENTS_WANTED` from the source. -/
def GRAB_EVENTS_WANTED : Int := 1

/-- `ULONG_MAX` on the Windows target (32-bit `unsigned long`). -/
def ULONG_MAX : Nat := 2 ^ 32 - 1

/-- Dereference `i->buf` as the list of records it holds; dereferencing
NULL is undefined behaviour in C and is modelled as the empty list. -/
def tslib_input.bufRecords (i : tslib_input) : List TOUCHINPUT :=
  i.buf.getD []

/-- The sample fields written from one record: `x`, `y`,
`tv_usec = dwTime * 1000` (DWORD arithmetic, wraps at `2^32`) and
`tv_sec = dwTime / 1000`, exactly as in lines 69–72 and 89–92 of the
source. -/
def mkSample (r : TOUCHINPUT) : ts_sample :=
  { x := r.x
    y := r.y
    tv := { tv_usec := r.dwTime * 1000 % 2 ^ 32
            tv_sec := r.dwTime / 1000 } }

/-- `ts_mswin_input_read`: the single-point read.  Takes the sample slot of
the caller (whose prior contents survive when nothing is written) and the
unused `nr` argument; returns the new contents of the sample slot and the C
return value. -/
def ts_mswin_input_read (i : tslib_input) (samp : ts_sample) (nr : Nat) :
    ts_sample × Nat :=
  if i.max_slots = 0 then
    (samp, 0)
  else if isDownOrMove (i.bufRecords.getD 0 zeroTouch) then
    (mkSample (i.bufRecords.getD 0 zeroTouch), 1)
  else
    (samp, 1)

/-- The loop body of `ts_mswin_input_read_mt`: walk the records `l` (the
prefix of the buffer scanned by the loop), writing a sample into output slot
`k` for each down-or-move record and advancing `k`. -/
def readMtGo (l : List TOUCHINPUT) (samp : List ts_sample) (k : Nat) :
    List ts_sample × Nat :=
  match l with
  | [] => (samp, k)
  | r :: rest =>
    if isDownOrMove r then
      readMtGo rest (samp.set k (mkSample r)) (k + 1)
    else
      readMtGo rest samp k

/-- `ts_mswin_input_read_mt`: the multi-point read.  The loop runs while
`j < max_slots && j < i->max_slots`, i.e. over the first
`min max_slots i.max_slots` buffer records; `samp` is the output array
`samp[0][.]` of the caller and `nr` is unused. -/
def ts_mswin_input_read_mt (i : tslib_input) (samp : List ts_sample)
    (max_slots : Nat) (nr : Nat) : List ts_sample × Nat :=
  readMtGo (i.bufRecords.take (min max_slots i.max_slots)) samp 0

/-- `parse_raw_grab`: returns the updated state and the C return value.
`v` and `erange` stand for the result of `strtoul(str, NULL, 0)` and
whether it set `ERANGE`; `data` is the integer cast of the registered
`void *` datum. -/
def parse_raw_grab (i : tslib_input) (v : Nat) (erange : Bool) (data : Int) :
    tslib_input × Int :=
  if v = ULONG_MAX ∧ erange then
    (i, -1)
  else
    match data with
    | 1 => (if v ≠ 0 then { i with grab_events := GRAB_EVENTS_WANTED } else i, 0)
    | _ => (i, -1)

/-- One configuration option fed through the generic option walker: its key
and the `strtoul` reading of its value string. -/
structure ts_var_opt where
  key : String
  v : Nat
  erange : Bool
  deriving Repr, DecidableEq

/-- Modelled from the spec: `tslib_parse_vars` (tslib core, not under
`src/`) walks the configuration options; an option key not among the
registered variables (here only `"grab_events"`, with datum 1, handled by
`parse_raw_grab`) is a configuration error, and a failure reported by the
per-key handler aborts with a nonzero result. -/
def tslib_parse_vars (i : tslib_input) (opts : List ts_var_opt) :
    tslib_input × Int :=
  match opts with
  | [] => (i, 0)
  | o :: rest =>
    if o.key = "grab_events" then
      let r := parse_raw_grab i o.v o.erange 1
      if r.2 = 0 then tslib_parse_vars r.1 rest else (r.1, -1)
    else
      (i, -1)

/-- The state `wmtouch_mod_init` builds before walking the options (lines
196–211 of the source). -/
def initInput : tslib_input :=
  { current_x := 0
    current_y := 0
    current_p := 0
    grab_events := 0
    buf := none
    slot := 0
    max_slots := 0
    nr := 0
    pen_down := 0
    last_fd := -2
    mt := 0
    no_pressure := 0
    type_a := 0
    special_device := 0 }

/-- `wmtouch_mod_init`: `allocOk` is the outcome of `malloc(sizeof *i)`; a
configuration failure frees the state and returns NULL (`none`). -/
def wmtouch_mod_init (allocOk : Bool) (opts : List ts_var_opt) :
    Option tslib_input :=
  if allocOk then
    let r := tslib_parse_vars initInput opts
    if r.2 ≠ 0 then none else some r.1
  else
    none

/-- Oracles for one `tslibWndProc` invocation: whether
`malloc(ni * sizeof(TOUCHINPUT))` succeeds, what `GetTouchInputInfo`
delivers (`none` = failure, `some recs` = the `ni` unpacked records), and
the result of the previously installed window procedure for forwarded
messages. -/
structure WndEnv where
  allocOk : Bool
  unpacked : Option (List TOUCHINPUT)
  prevResult : Int
  deriving Repr, DecidableEq

/-- Outcome of one `tslibWndProc` invocation: the state left behind, whether
`CloseTouchInputHandle` ran, whether the message was forwarded through
`CallWindowProc(i->prevWndProc, ...)`, and the returned `LRESULT`. -/
structure WndOutcome where
  st : tslib_input
  closedHandle : Bool
  forwarded : Bool
  ret : Int
  deriving Repr, DecidableEq

/-- The tail of the `WM_TOUCH` case after the growth check:
`memset(i->buf, 0, i->max_slots * sizeof(TOUCHINPUT))`, then
`GetTouchInputInfo` fills the first `ni` entries on success; on success the
touch handle is closed and 0 is returned, otherwise the message falls
through to the previously installed handler. -/
def touchUnpack (i : tslib_input) (ni : Nat) (env : WndEnv) : WndOutcome :=
  match env.unpacked with
  | some recs =>
    { st := { i with
        buf := some (recs.take ni ++
          List.replicate (i.max_slots - ni) zeroTouch) }
      closedHandle := true
      forwarded := false
      ret := 0 }
  | none =>
    { st := { i with buf := some (List.replicate i.max_slots zeroTouch) }
      closedHandle := false
      forwarded := true
      ret := env.prevResult }

/-- `tslibWndProc`: on `WM_TOUCH` with contact count `ni = wParam`, grow the
buffer when `ni > i->max_slots` — `free(i->buf)` happens *before* the
`malloc`, so a failed allocation leaves `buf = NULL` with `max_slots`
unchanged and breaks out (message forwarded); on success the fresh
allocation (contents indeterminate until the `memset` in `touchUnpack`,
rendered here as zeros because the `memset` always precedes any read)
replaces the buffer and `max_slots := ni`.  Every non-`WM_TOUCH` or
unhandled message is forwarded to the previously installed window
procedure. -/
def tslibWndProc (i : tslib_input) (uMsg : Nat) (wParam : Nat)
    (env : WndEnv) : WndOutcome :=
  if uMsg = WM_TOUCH then
    let ni := wParam
    if ni > i.max_slots then
      if env.allocOk then
        touchUnpack
          { i with buf := some (List.replicate ni zeroTouch), max_slots := ni }
          ni env
      else
        { st := { i with buf := none }
          closedHandle := false
          forwarded := true
          ret := env.prevResult }
    else
      touchUnpack i ni env
  else
    { st := i, closedHandle := false, forwarded := true, ret := env.prevResult }

/-- One delivered message: `uMsg`, `wParam` and the oracles of that
invocation. -/
structure WndMsg where
  uMsg : Nat
  wParam : Nat
  env : WndEnv
  deriving Repr, DecidableEq

/-- Deliver a sequence of messages to `tslibWndProc`, threading the state. -/
def runMsgs (i : tslib_input) (msgs : List WndMsg) : tslib_input :=
  match msgs with
  | [] => i
  | m :: rest => runMsgs (tslibWndProc i m.uMsg m.wParam m.env).st rest

/-- Feed a sequence of `grab_events` values (each a `strtoul` result plus
`ERANGE` flag) through `parse_raw_grab` with the registered datum 1,
threading the state; a failing call leaves the state unchanged, as in C. -/
def runGrabParses (i : tslib_input) (l : List (Nat × Bool)) : tslib_input :=
  match l with
  | [] => i
  | p :: rest => runGrabParses (parse_raw_grab i p.1 p.2 1).1 rest

/-- Concrete batch from the worked scenario of the spec: three contacts with
flags down, up, move, all stamped 1500 ms. -/
def demoRecs : List TOUCHINPUT :=
  [{ x := 10, y := 20, dwFlags := TOUCHEVENTF_DOWN, dwTime := 1500 },
   { x := 30, y := 40, dwFlags := 4, dwTime := 1500 },
   { x := 50, y := 60, dwFlags := TOUCHEVENTF_MOVE, dwTime := 1500 }]

/-- Environment delivering `demoRecs` with a successful allocation. -/
def demoEnv : WndEnv := { allocOk := true, unpacked := some demoRecs, prevResult := 7 }

/-- Adapter state after successfully processing the `demoRecs` batch. -/
def demoState : tslib_input := (tslibWndProc initInput WM_TOUCH 3 demoEnv).st

/-- An all-zero caller-side sample slot. -/
def blankSample : ts_sample := { x := 0, y := 0, tv := { tv_sec := 0, tv_usec := 0 } }

/-- A batch of five identical down contacts, used to pre-grow the buffer. -/
def fiveRecs : List TOUCHINPUT :=
  List.replicate 5 { x := 1, y := 2, dwFlags := TOUCHEVENTF_DOWN, dwTime := 100 }

/-- Adapter state after successfully processing a batch of five contacts. -/
def st5 : tslib_input :=
  (tslibWndProc initInput WM_TOUCH 5
    { allocOk := true, unpacked := some fiveRecs, prevResult := 0 }).st

/-- Environment delivering an empty batch (size 0) successfully. -/
def env0 : WndEnv := { allocOk := true, unpacked := some [], prevResult := 0 }

/-- A buffer of two records used as the pre-failure state for the
allocation-failure evaluation. -/
def twoRecs : List TOUCHINPUT :=
  [{ x := 1, y := 2, dwFlags := TOUCHEVENTF_DOWN, dwTime := 10 },
   { x := 3, y := 4, dwFlags := 0, dwTime := 10 }]

/-! ### Helper lemmas -/

theorem take_succ_set {α : Type*} (v : α) (l : List α) :
    ∀ k : Nat, k < l.length → (l.set k v).take (k + 1) = l.take k ++ [v] := by
  induction l with
  | nil => intro k h; simp at h
  | cons a l ih =>
    intro k h
    cases k with
    | zero => simp
    | succ k =>
      have hk : k < l.length := by simpa using h
      simp [List.set, ih k hk]

theorem readMtGo_snd (l : List TOUCHINPUT) :
    ∀ (samp : List ts_sample) (k : Nat),
      (readMtGo l samp k).2 = k + (l.filter isDownOrMove).length := by
  induction l with
  | nil => intro samp k; simp [readMtGo]
  | cons r rest ih =>
    intro samp k
    by_cases hr : isDownOrMove r
    · simp [readMtGo, hr, ih]; omega
    · simp [readMtGo, hr, ih]

theorem readMtGo_fst (l : List TOUCHINPUT) :
    ∀ (samp : List ts_sample) (k : Nat),
      k + (l.filter isDownOrMove).length ≤ samp.length →
      (readMtGo l samp k).1 =
        samp.take k ++ (l.filter isDownOrMove).map mkSample ++
          samp.drop (k + (l.filter isDownOrMove).length) := by
  induction l with
  | nil => intro samp k h; simp [readMtGo]
  | cons r rest ih =>
    intro samp k h
    by_cases hr : isDownOrMove r
    · have hflen : ((r :: rest).filter isDownOrMove).length =
          (rest.filter isDownOrMove).length + 1 := by simp [hr]
      have hk : k < samp.length := by omega
      have hle : (k + 1) + (rest.filter isDownOrMove).length ≤
          (samp.set k (mkSample r)).length := by
        rw [List.length_set]; omega
      have hstep : (readMtGo (r :: rest) samp k).1 =
          (readMtGo rest (samp.set k (mkSample r)) (k + 1)).1 := by
        simp [readMtGo, hr]
      rw [hstep, ih _ _ hle, take_succ_set (mkSample r) samp k hk,
        List.drop_set_of_lt _ _ (by omega : k < (k + 1) + (rest.filter isDownOrMove).length)]
      have hidx : (k + 1) + (rest.filter isDownOrMove).length =
          k + ((r :: rest).filter isDownOrMove).length := by omega
      rw [hidx]
      simp [hr, List.append_assoc]
    · have hstep : (readMtGo (r :: rest) samp k).1 = (readMtGo rest samp k).1 := by
        simp [readMtGo, hr]
      rw [hstep, ih _ _ (by simpa [hr] using h)]
      simp [hr]

theorem read_mt_decomp (i : tslib_input) (samp : List ts_sample) (ms nr : Nat)
    (h : min ms i.max_slots ≤ samp.length) :
    ts_mswin_input_read_mt i samp ms nr =
      (((i.bufRecords.take (min ms i.max_slots)).filter isDownOrMove).map mkSample ++
         samp.drop ((i.bufRecords.take (min ms i.max_slots)).filter isDownOrMove).length,
       ((i.bufRecords.take (min ms i.max_slots)).filter isDownOrMove).length) := by
  have hlen : ((i.bufRecords.take (min ms i.max_slots)).filter isDownOrMove).length ≤
      samp.length := by
    calc ((i.bufRecords.take (min ms i.max_slots)).filter isDownOrMove).length
        ≤ (i.bufRecords.take (min ms i.max_slots)).length :=
          List.length_filter_le _ _
      _ ≤ min ms i.max_slots := by
          rw [List.length_take]; exact Nat.min_le_left _ _
      _ ≤ samp.length := h
  have h1 := readMtGo_fst (i.bufRecords.take (min ms i.max_slots)) samp 0
    (by simpa using hlen)
  have h2 := readMtGo_snd (i.bufRecords.take (min ms i.max_slots)) samp 0
  simp only [Nat.zero_add, List.take_zero, List.nil_append] at h1 h2
  exact Prod.ext_iff.mpr ⟨h1, h2⟩

theorem touchUnpack_max_slots (i : tslib_input) (ni : Nat) (env : WndEnv) :
    (touchUnpack i ni env).st.max_slots = i.max_slots := by
  cases h : env.unpacked <;> simp [touchUnpack, h]

theorem touchUnpack_closed (i : tslib_input) (ni : Nat) (env : WndEnv) :
    (touchUnpack i ni env).closedHandle = env.unpacked.isSome := by
  cases h : env.unpacked <;> simp [touchUnpack, h]

theorem wndproc_max_slots_mono (i : tslib_input) (u w : Nat) (e : WndEnv) :
    i.max_slots ≤ (tslibWndProc i u w e).st.max_slots := by
  by_cases hm : u = WM_TOUCH
  · subst hm
    by_cases hg : w > i.max_slots
    · by_cases ha : e.allocOk
      · simp [tslibWndProc, hg, ha, touchUnpack_max_slots]; omega
      · simp [tslibWndProc, hg, ha]
    · simp [tslibWndProc, hg, touchUnpack_max_slots]
  · simp [tslibWndProc, hm]

theorem runMsgs_max_slots_mono (msgs : List WndMsg) :
    ∀ i : tslib_input, i.max_slots ≤ (runMsgs i msgs).max_slots := by
  induction msgs with
  | nil => intro i; simp [runMsgs]
  | cons m rest ih =>
    intro i
    calc i.max_slots
        ≤ (tslibWndProc i m.uMsg m.wParam m.env).st.max_slots :=
          wndproc_max_slots_mono i m.uMsg m.wParam m.env
      _ ≤ _ := by rw [runMsgs]; exact ih _

theorem wndproc_touch_handled_capacity (i : tslib_input) (n : Nat) (e : WndEnv)
    (hok : (tslibWndProc i WM_TOUCH n e).closedHandle = true) :
    n ≤ (tslibWndProc i WM_TOUCH n e).st.max_slots := by
  by_cases hg : n > i.max_slots
  · by_cases ha : e.allocOk
    · simp [tslibWndProc, hg, ha, touchUnpack_max_slots]
    · simp [tslibWndProc, hg, ha] at hok
  · simp [tslibWndProc, hg, touchUnpack_max_slots]; omega

theorem wndproc_touch_success_state (i : tslib_input) (n : Nat) (env : WndEnv)
    (recs : List TOUCHINPUT) (hu : env.unpacked = some recs)
    (hok : (tslibWndProc i WM_TOUCH n env).closedHandle = true) :
    n ≤ (tslibWndProc i WM_TOUCH n env).st.max_slots ∧
      (tslibWndProc i WM_TOUCH n env).st.bufRecords =
        recs.take n ++
          List.replicate ((tslibWndProc i WM_TOUCH n env).st.max_slots - n)
            zeroTouch := by
  by_cases hg : n > i.max_slots
  · by_cases ha : env.allocOk
    · constructor
      · simp [tslibWndProc, hg, ha, touchUnpack_max_slots]
      · simp [tslibWndProc, hg, ha, touchUnpack, hu, tslib_input.bufRecords,
          touchUnpack_max_slots]
    · simp [tslibWndProc, hg, ha] at hok
  · constructor
    · simp [tslibWndProc, hg, touchUnpack_max_slots]; omega
    · simp [tslibWndProc, hg, touchUnpack, hu, tslib_input.bufRecords,
        touchUnpack_max_slots]

theorem parse_raw_grab_keeps_grab (i : tslib_input) (v : Nat) (er : Bool)
    (d : Int) (h : i.grab_events = GRAB_EVENTS_WANTED) :
    (parse_raw_grab i v er d).1.grab_events = GRAB_EVENTS_WANTED := by
  unfold parse_raw_grab
  split
  · exact h
  · split
    · split <;> simp [h]
    · exact h

theorem runGrabParses_keeps_grab (l : List (Nat × Bool)) :
    ∀ i : tslib_input, i.grab_events = GRAB_EVENTS_WANTED →
      (runGrabParses i l).grab_events = GRAB_EVENTS_WANTED := by
  induction l with
  | nil => intro i h; simpa [runGrabParses] using h
  | cons p rest ih =>
    intro i h
    rw [runGrabParses]
    exact ih _ (parse_raw_grab_keeps_grab i p.1 p.2 1 h)

theorem tslib_parse_vars_fails (opts : List ts_var_opt) :
    ∀ i : tslib_input,
      (∃ o ∈ opts, o.key ≠ "grab_events" ∨ (o.v = ULONG_MAX ∧ o.erange = true)) →
      (tslib_parse_vars i opts).2 ≠ 0 := by
  induction opts with
  | nil => intro i h; simp at h
  | cons o rest ih =>
    intro i h
    by_cases hk : o.key = "grab_events"
    · simp only [tslib_parse_vars, hk, if_true]
      split
      · next hr =>
        rcases h with ⟨o2, ho2, hbad⟩
        rcases List.mem_cons.mp ho2 with rfl | hmem
        · rcases hbad with hbad | hbad
          · exact absurd hk hbad
          · simp [parse_raw_grab, hbad.1, hbad.2] at hr
        · exact ih _ ⟨o2, hmem, hbad⟩
      · norm_num
    · simp [tslib_parse_vars, hk]

/-! ### Claim theorems -/

/-- C1: the claim says each emitted sample satisfies `seconds = ms/1000` and
`microseconds = (ms mod 1000) * 1000` (so a 1500 ms record yields
`usec = 500000`).  The code instead stores `tv_usec = dwTime * 1000`: for
the 1500 ms record of the demo batch both read operations store
`tv_usec = 1500000` (with `tv_sec = 1`), an invalid `timeval` that double
counts the whole seconds already in `tv_sec`. -/
theorem mswin_timestamp_usec_eval :
    (ts_mswin_input_read demoState blankSample 1).1.tv.tv_sec = 1 ∧
    (ts_mswin_input_read demoState blankSample 1).1.tv.tv_usec = 1500000 ∧
    ((ts_mswin_input_read_mt demoState (List.replicate 5 blankSample) 5 1).1.getD 0
        blankSample).tv.tv_usec = 1500000 ∧
    (ts_mswin_input_read demoState blankSample 1).1.tv.tv_usec ≠
      (1500 % 1000) * 1000 := by
  decide

/-- C2: the claim says a failed buffer reallocation leaves the buffer
pointer and prior contents unchanged.  In the code `free(i->buf)` runs
before `malloc`, so after a failed growth from capacity 2 to 10 the buffer
pointer is NULL and the prior records are gone, while `max_slots` still
reads 2. -/
theorem mswin_alloc_failure_state_eval :
    ({ initInput with buf := some twoRecs, max_slots := 2 } : tslib_input).buf =
        some twoRecs ∧
    (tslibWndProc { initInput with buf := some twoRecs, max_slots := 2 }
        WM_TOUCH 10 { allocOk := false, unpacked := none, prevResult := 5 }).st.buf =
      none ∧
    (tslibWndProc { initInput with buf := some twoRecs, max_slots := 2 }
        WM_TOUCH 10
        { allocOk := false, unpacked := none, prevResult := 5 }).st.max_slots = 2 ∧
    some twoRecs ≠ (none : Option (List TOUCHINPUT)) := by
  decide

/-- C3: the single-point read returns 0 iff the capacity is zero, otherwise
it returns exactly 1, writing the fields of buffer record 0 into the sample
of the caller iff that record is down or moving and leaving the sample
untouched otherwise. -/
theorem mswin_single_read_contract (i : tslib_input) (samp : ts_sample)
    (nr : Nat) :
    ((ts_mswin_input_read i samp nr).2 = 0 ↔ i.max_slots = 0) ∧
    (i.max_slots ≠ 0 →
      (ts_mswin_input_read i samp nr).2 = 1 ∧
      (ts_mswin_input_read i samp nr).1 =
        if isDownOrMove (i.bufRecords.getD 0 zeroTouch) then
          mkSample (i.bufRecords.getD 0 zeroTouch)
        else samp) := by
  unfold ts_mswin_input_read
  by_cases h : i.max_slots = 0
  · rw [if_pos h]
    exact ⟨⟨fun _ => h, fun _ => rfl⟩, fun hc => absurd h hc⟩
  · rw [if_neg h]
    by_cases hd : isDownOrMove (i.bufRecords.getD 0 zeroTouch)
    · rw [if_pos hd, if_pos hd]
      exact ⟨⟨fun h0 => absurd h0 one_ne_zero, fun hc => absurd hc h⟩,
        fun _ => ⟨rfl, rfl⟩⟩
    · rw [if_neg hd, if_neg hd]
      exact ⟨⟨fun h0 => absurd h0 one_ne_zero, fun hc => absurd hc h⟩,
        fun _ => ⟨rfl, rfl⟩⟩

/-- Witness for C3 on the demo state (capacity 3, record 0 down). -/
theorem mswin_single_read_contract_witness :
    demoState.max_slots ≠ 0 ∧
    ((ts_mswin_input_read demoState blankSample 1).2 = 0 ↔
      demoState.max_slots = 0) ∧
    (ts_mswin_input_read demoState blankSample 1).2 = 1 ∧
    (ts_mswin_input_read demoState blankSample 1).1 =
      (if isDownOrMove (demoState.bufRecords.getD 0 zeroTouch) then
        mkSample (demoState.bufRecords.getD 0 zeroTouch)
      else blankSample) :=
  ⟨by decide, (mswin_single_read_contract demoState blankSample 1).1,
   ((mswin_single_read_contract demoState blankSample 1).2 (by decide)).1,
   ((mswin_single_read_contract demoState blankSample 1).2 (by decide)).2⟩

/-- C4: after a successfully processed batch of `n` contacts, the
multi-point read returns at most `min req n` samples, whatever the requested
slot count `req` and even when `n` is below the grown capacity. -/
theorem mswin_mt_read_le_batch (i : tslib_input) (n : Nat) (env : WndEnv)
    (recs : List TOUCHINPUT) (hu : env.unpacked = some recs)
    (hl : recs.length = n)
    (hok : (tslibWndProc i WM_TOUCH n env).closedHandle = true)
    (samp : List ts_sample) (req nr : Nat) :
    (ts_mswin_input_read_mt (tslibWndProc i WM_TOUCH n env).st samp req nr).2 ≤
      min req n := by
  obtain ⟨hn, hbuf⟩ := wndproc_touch_success_state i n env recs hu hok
  set st2 := (tslibWndProc i WM_TOUCH n env).st with hst
  have hcount := readMtGo_snd (st2.bufRecords.take (min req st2.max_slots)) samp 0
  have hres : (ts_mswin_input_read_mt st2 samp req nr).2 =
      ((st2.bufRecords.take (min req st2.max_slots)).filter isDownOrMove).length := by
    simpa [ts_mswin_input_read_mt] using hcount
  rw [hres]
  have hz : isDownOrMove zeroTouch = false := by decide
  have hfull : (st2.bufRecords.filter isDownOrMove).length ≤ n := by
    rw [hbuf, List.filter_append, List.length_append]
    have h1 : ((recs.take n).filter isDownOrMove).length ≤ n := by
      calc ((recs.take n).filter isDownOrMove).length
          ≤ (recs.take n).length := List.length_filter_le _ _
        _ ≤ n := by rw [List.length_take]; exact Nat.min_le_left _ _
    have h2 : ((List.replicate (st2.max_slots - n) zeroTouch).filter
        isDownOrMove).length = 0 := by
      simp [List.filter_replicate, hz]
    omega
  have hsub : List.Sublist
      ((st2.bufRecords.take (min req st2.max_slots)).filter isDownOrMove)
      (st2.bufRecords.filter isDownOrMove) :=
    (List.take_sublist _ _).filter _
  have hreq : ((st2.bufRecords.take (min req st2.max_slots)).filter
      isDownOrMove).length ≤ req := by
    calc ((st2.bufRecords.take (min req st2.max_slots)).filter isDownOrMove).length
        ≤ (st2.bufRecords.take (min req st2.max_slots)).length :=
          List.length_filter_le _ _
      _ ≤ min req st2.max_slots := by
          rw [List.length_take]; exact Nat.min_le_left _ _
      _ ≤ req := Nat.min_le_left _ _
  exact le_min hreq (le_trans hsub.length_le hfull)

/-- Witness for C4: an empty batch after a batch of five leaves capacity 5,
yet the read returns at most `min 5 0 = 0` samples. -/
theorem mswin_mt_read_le_batch_witness :
    (ts_mswin_input_read_mt (tslibWndProc st5 WM_TOUCH 0 env0).st
      (List.replicate 5 blankSample) 5 1).2 ≤ min 5 0 :=
  mswin_mt_read_le_batch st5 0 env0 [] (by decide) (by decide) (by decide)
    (List.replicate 5 blankSample) 5 1

/-- C5: module initialization returns NULL whenever the configuration
contains an unrecognized option key or a `grab_events` value on which
`strtoul` reports a range error (the only parse failure `strtoul` can
signal). -/
theorem mswin_init_fails_on_bad_config (opts : List ts_var_opt)
    (h : ∃ o ∈ opts, o.key ≠ "grab_events" ∨ (o.v = ULONG_MAX ∧ o.erange = true)) :
    wmtouch_mod_init true opts = none := by
  have hfail := tslib_parse_vars_fails opts initInput h
  simp [wmtouch_mod_init, hfail]

/-- Witness for C5: a well-formed `grab_events` option followed by an
unrecognized key makes initialization fail. -/
theorem mswin_init_fails_on_bad_config_witness :
    wmtouch_mod_init true
      [{ key := "grab_events", v := 1, erange := false },
       { key := "bogus", v := 0, erange := false }] = none :=
  mswin_init_fails_on_bad_config
    [{ key := "grab_events", v := 1, erange := false },
     { key := "bogus", v := 0, erange := false }]
    ⟨{ key := "bogus", v := 0, erange := false }, by decide, by decide⟩

/-- C6: the multi-point read emits a sample for a scanned record iff it is
down or moving: the output is exactly the in-order map of the down-or-move
records of the scanned prefix, written at consecutive slots from 0, with
the remaining caller slots untouched. -/
theorem mswin_mt_read_filter_ordered (i : tslib_input) (samp : List ts_sample)
    (ms nr : Nat) (h : min ms i.max_slots ≤ samp.length) :
    (ts_mswin_input_read_mt i samp ms nr).2 =
      ((i.bufRecords.take (min ms i.max_slots)).filter isDownOrMove).length ∧
    (ts_mswin_input_read_mt i samp ms nr).1 =
      ((i.bufRecords.take (min ms i.max_slots)).filter isDownOrMove).map mkSample ++
        samp.drop
          ((i.bufRecords.take (min ms i.max_slots)).filter isDownOrMove).length := by
  have hd := read_mt_decomp i samp ms nr h
  exact ⟨by rw [hd], by rw [hd]⟩

/-- Witness for C6 on the demo batch (down, up, move): two samples, in batch
order. -/
theorem mswin_mt_read_filter_ordered_witness :
    (ts_mswin_input_read_mt demoState (List.replicate 5 blankSample) 5 1).2 =
      ((demoState.bufRecords.take (min 5 demoState.max_slots)).filter
        isDownOrMove).length ∧
    (ts_mswin_input_read_mt demoState (List.replicate 5 blankSample) 5 1).1 =
      ((demoState.bufRecords.take (min 5 demoState.max_slots)).filter
          isDownOrMove).map mkSample ++
        (List.replicate 5 blankSample).drop
          ((demoState.bufRecords.take (min 5 demoState.max_slots)).filter
            isDownOrMove).length :=
  ⟨(mswin_mt_read_filter_ordered demoState (List.replicate 5 blankSample) 5 1
      (by decide)).1,
   (mswin_mt_read_filter_ordered demoState (List.replicate 5 blankSample) 5 1
      (by decide)).2⟩

/-- C7: buffer capacity never decreases on any message (failed reallocation
included), nor across any message sequence, and once a batch of size `n` is
successfully processed the capacity stays at least `n` through any further
sequence of messages. -/
theorem mswin_capacity_monotone (i : tslib_input) :
    (∀ u w e, i.max_slots ≤ (tslibWndProc i u w e).st.max_slots) ∧
    (∀ msgs, i.max_slots ≤ (runMsgs i msgs).max_slots) ∧
    (∀ n e msgs, (tslibWndProc i WM_TOUCH n e).closedHandle = true →
      n ≤ (runMsgs (tslibWndProc i WM_TOUCH n e).st msgs).max_slots) :=
  ⟨fun u w e => wndproc_max_slots_mono i u w e,
   fun msgs => runMsgs_max_slots_mono msgs i,
   fun n e msgs hok => le_trans (wndproc_touch_handled_capacity i n e hok)
     (runMsgs_max_slots_mono msgs _)⟩

/-- Witness for C7: a successful batch of three, followed by a further
message, keeps the capacity at least 3. -/
theorem mswin_capacity_monotone_witness :
    initInput.max_slots ≤ (tslibWndProc initInput WM_TOUCH 3 demoEnv).st.max_slots ∧
    initInput.max_slots ≤
      (runMsgs initInput [{ uMsg := WM_TOUCH, wParam := 3, env := demoEnv }]).max_slots ∧
    3 ≤ (runMsgs (tslibWndProc initInput WM_TOUCH 3 demoEnv).st
        [{ uMsg := 5, wParam := 0, env := demoEnv }]).max_slots := by
  have hthm := mswin_capacity_monotone initInput
  exact ⟨hthm.1 WM_TOUCH 3 demoEnv,
    hthm.2.1 [{ uMsg := WM_TOUCH, wParam := 3, env := demoEnv }],
    hthm.2.2 3 demoEnv [{ uMsg := 5, wParam := 0, env := demoEnv }] (by decide)⟩

/-- C8: the handler forwards exactly the messages that are not a fully
handled `WM_TOUCH` (wrong message, failed growth, or failed unpack),
returning the result of the previously installed handler; a successfully
unpacked batch closes the touch handle and returns 0 without forwarding. -/
theorem mswin_wndproc_forward_contract (i : tslib_input) (u w : Nat)
    (e : WndEnv) :
    ((tslibWndProc i u w e).forwarded = true ↔
      ¬(u = WM_TOUCH ∧ (w ≤ i.max_slots ∨ e.allocOk = true) ∧
        e.unpacked.isSome = true)) ∧
    ((tslibWndProc i u w e).forwarded = true →
      (tslibWndProc i u w e).ret = e.prevResult ∧
      (tslibWndProc i u w e).closedHandle = false) ∧
    ((tslibWndProc i u w e).forwarded = false →
      (tslibWndProc i u w e).closedHandle = true ∧
      (tslibWndProc i u w e).ret = 0) := by
  by_cases hm : u = WM_TOUCH
  · subst hm
    by_cases hg : w > i.max_slots
    · have hg2 : ¬ w ≤ i.max_slots := by omega
      by_cases ha : e.allocOk
      · cases hu : e.unpacked with
        | none => simp [tslibWndProc, hg, ha, touchUnpack, hu, hg2]
        | some recs => simp [tslibWndProc, hg, ha, touchUnpack, hu, hg2]
      · simp [tslibWndProc, hg, ha, hg2]
    · have hg2 : w ≤ i.max_slots := by omega
      cases hu : e.unpacked with
      | none => simp [tslibWndProc, hg, touchUnpack, hu, hg2]
      | some recs => simp [tslibWndProc, hg, touchUnpack, hu, hg2]
  · simp [tslibWndProc, hm]

/-- Witness for C8: an unrecognized message (here `uMsg = 2`) is forwarded
with the result of the previous handler and no handle is closed. -/
theorem mswin_wndproc_forward_contract_witness :
    (tslibWndProc initInput 2 0
      { allocOk := true, unpacked := none, prevResult := 42 }).forwarded = true ∧
    (tslibWndProc initInput 2 0
      { allocOk := true, unpacked := none, prevResult := 42 }).ret = 42 ∧
    (tslibWndProc initInput 2 0
      { allocOk := true, unpacked := none, prevResult := 42 }).closedHandle =
      false := by
  have hthm := mswin_wndproc_forward_contract initInput 2 0
    { allocOk := true, unpacked := none, prevResult := 42 }
  have hf := hthm.1.mpr (by decide)
  exact ⟨hf, (hthm.2.1 hf).1, (hthm.2.1 hf).2⟩

/-- C9: with no intervening batch, running the multi-point read twice with
the same requested slot count returns the same count and leaves the caller
array with identical contents (the second call rewrites the same values). -/
theorem mswin_mt_read_idempotent (i : tslib_input) (samp : List ts_sample)
    (ms nr nr2 : Nat) (h : min ms i.max_slots ≤ samp.length) :
    ts_mswin_input_read_mt i (ts_mswin_input_read_mt i samp ms nr).1 ms nr2 =
      ts_mswin_input_read_mt i samp ms nr := by
  have h1 := read_mt_decomp i samp ms nr h
  have hlen1 : ((ts_mswin_input_read_mt i samp ms nr).1).length = samp.length := by
    have hf : ((i.bufRecords.take (min ms i.max_slots)).filter
        isDownOrMove).length ≤ samp.length := by
      calc ((i.bufRecords.take (min ms i.max_slots)).filter isDownOrMove).length
          ≤ (i.bufRecords.take (min ms i.max_slots)).length :=
            List.length_filter_le _ _
        _ ≤ min ms i.max_slots := by
            rw [List.length_take]; exact Nat.min_le_left _ _
        _ ≤ samp.length := h
    rw [h1]
    simp only [List.length_append, List.length_map, List.length_drop]
    omega
  have h2 := read_mt_decomp i (ts_mswin_input_read_mt i samp ms nr).1 ms nr2
    (by rw [hlen1]; exact h)
  rw [h2, h1]
  have hM : (((i.bufRecords.take (min ms i.max_slots)).filter
      isDownOrMove).map mkSample).length =
      ((i.bufRecords.take (min ms i.max_slots)).filter isDownOrMove).length := by
    simp
  rw [Prod.mk.injEq]
  refine ⟨?_, rfl⟩
  congr 1
  rw [← hM, List.drop_left]

/-- Witness for C9 on the demo batch. -/
theorem mswin_mt_read_idempotent_witness :
    ts_mswin_input_read_mt demoState
        (ts_mswin_input_read_mt demoState (List.replicate 5 blankSample) 5 1).1 5 2 =
      ts_mswin_input_read_mt demoState (List.replicate 5 blankSample) 5 1 :=
  mswin_mt_read_idempotent demoState (List.replicate 5 blankSample) 5 1 2 (by decide)

/-- C10: `grab_events` parsing is set-only: a successful parse of a nonzero
value enables the flag, a zero value leaves the state untouched while still
succeeding, and once the flag is enabled no later sequence of parses (zero
values and range errors included) can clear it. -/
theorem mswin_grab_events_set_only (i : tslib_input) (v : Nat) (erange : Bool) :
    ((parse_raw_grab i v erange 1).2 = 0 → v ≠ 0 →
      (parse_raw_grab i v erange 1).1.grab_events = GRAB_EVENTS_WANTED) ∧
    (v = 0 →
      (parse_raw_grab i v erange 1).1 = i ∧ (parse_raw_grab i v erange 1).2 = 0) ∧
    (i.grab_events = GRAB_EVENTS_WANTED →
      ∀ l, (runGrabParses i l).grab_events = GRAB_EVENTS_WANTED) := by
  refine ⟨?_, ?_, fun h l => runGrabParses_keeps_grab l i h⟩
  · intro hret hv
    by_cases he : v = ULONG_MAX ∧ erange = true
    · exfalso
      simp [parse_raw_grab, he.1, he.2] at hret
    · simp [parse_raw_grab, he, hv]
  · intro hv
    subst hv
    have h0 : ¬((0 : Nat) = ULONG_MAX) := by decide
    simp [parse_raw_grab, h0]

/-- Witness for C10: a nonzero parse sets the flag, a zero parse is a
successful no-op, and a later zero or out-of-range value leaves an enabled
flag enabled. -/
theorem mswin_grab_events_set_only_witness :
    (parse_raw_grab initInput 1 false 1).1.grab_events = GRAB_EVENTS_WANTED ∧
    (parse_raw_grab initInput 0 true 1).1 = initInput ∧
    (parse_raw_grab initInput 0 true 1).2 = 0 ∧
    (runGrabParses { initInput with grab_events := GRAB_EVENTS_WANTED }
        [(0, false), (ULONG_MAX, true)]).grab_events = GRAB_EVENTS_WANTED := by
  have h1 := mswin_grab_events_set_only initInput 1 false
  have h0 := mswin_grab_events_set_only initInput 0 true
  have h2 := mswin_grab_events_set_only
    { initInput with grab_events := GRAB_EVENTS_WANTED } 0 false
  exact ⟨h1.1 (by decide) (by decide), (h0.2.1 rfl).1, (h0.2.1 rfl).2,
    h2.2.2 rfl [(0, false), (ULONG_MAX, true)]⟩
